import Mathlib

/-!
Verification development for the portfolio generator
(`export-github-as-portfolio.py`).  The Python source is shallowly
embedded: pure string processing becomes functions on `List Char`
(scanners carry an explicit fuel argument, always called with enough
fuel, so that everything reduces by `decide`/`rfl`); the fpdf page
cursor becomes an explicit `Pager` state with the library's A4
defaults; HTTP outcomes become an explicit datatype.
-/

set_option maxRecDepth 100000

/-! ### Python `\s` whitespace and other character classes -/

def isWSChar (c : Char) : Bool :=
  c == ' ' || c == '\t' || c == '\n' || c == '\r' || c == '\x0b' || c == '\x0c'

def isAlnumAscii (c : Char) : Bool :=
  ('a' ≤ c && c ≤ 'z') || ('A' ≤ c && c ≤ 'Z') || ('0' ≤ c && c ≤ '9')

def isDigitChar (c : Char) : Bool := '0' ≤ c && c ≤ '9'

def notBrace (c : Char) : Bool := !(c == '\x7b' || c == '\x7d')

/-! ### `str.replace`

`pyReplace s pat rep` models Python `s.replace(pat, rep)`: leftmost,
non-overlapping, continues after the replacement without rescanning it.
The fuel is the input length plus one, enough because every step
consumes at least one character of the remaining input. -/

def replaceAllF (pat rep : List Char) : Nat → List Char → List Char
  | 0, s => s
  | fuel + 1, s =>
    if pat.isEmpty then s
    else if pat.isPrefixOf s then rep ++ replaceAllF pat rep fuel (s.drop pat.length)
    else
      match s with
      | [] => []
      | c :: cs => c :: replaceAllF pat rep fuel cs

def pyReplace (s pat rep : String) : String :=
  String.mk (replaceAllF pat.data rep.data (s.data.length + 1) s.data)

/-! ### The fallback symbol table of `latex_to_unicode`
In the source this is a Python dict; insertion order is iteration
order, and the replacements are applied sequentially in that order. -/

def symbolTable : List (String × String) :=
  [("\\alpha", "a"), ("\\beta", "b"), ("\\gamma", "g"), ("\\delta", "d"),
   ("\\epsilon", "e"), ("\\zeta", "z"), ("\\eta", "n"), ("\\theta", "th"),
   ("\\iota", "i"), ("\\kappa", "k"), ("\\lambda", "l"), ("\\mu", "m"),
   ("\\nu", "v"), ("\\xi", "x"), ("\\pi", "p"), ("\\rho", "r"),
   ("\\sigma", "s"), ("\\tau", "t"), ("\\upsilon", "u"), ("\\phi", "ph"),
   ("\\chi", "ch"), ("\\psi", "ps"), ("\\omega", "o"),
   ("\\Gamma", "G"), ("\\Delta", "D"), ("\\Theta", "Th"), ("\\Lambda", "L"),
   ("\\Xi", "X"), ("\\Pi", "P"), ("\\Sigma", "S"), ("\\Upsilon", "U"),
   ("\\Phi", "Ph"), ("\\Psi", "Ps"), ("\\Omega", "O"),
   ("\\infty", "inf"), ("\\pm", "+/-"), ("\\mp", "-/+"), ("\\times", "x"),
   ("\\div", "/"), ("\\leq", "<="), ("\\geq", ">="), ("\\neq", "!="),
   ("\\approx", "~"), ("\\equiv", "=="), ("\\int", "int"), ("\\sum", "sum"),
   ("\\prod", "prod"), ("\\sqrt", "sqrt"), ("\\partial", "d")]

def applySymbols (tex : String) : String :=
  symbolTable.foldl (fun acc kv => pyReplace acc kv.1 kv.2) tex

/-! ### The regex passes of the fallback

`markBraceF m` models `re.sub(r'M{([^{}]+)}', lambda m: 'M' + group)`
(with `M` the marker `^` or `_`); `markSingleF m` models
`re.sub(r'M([a-zA-Z0-9])', ...)`; `fracF` models
`re.sub(r'\\frac{([^{}]+)}{([^{}]+)}', ...)`.  All scan left to right;
on a failed match attempt the scan advances one character, as the regex
engine does; replacements are emitted to the output and never
rescanned, as `re.sub` does. -/

def markBraceF (mark : Char) : Nat → List Char → List Char
  | 0, s => s
  | _ + 1, [] => []
  | fuel + 1, c :: rest =>
    if c == mark then
      match rest with
      | b :: rest2 =>
        if b == '\x7b' then
          let t := rest2.takeWhile notBrace
          match rest2.drop t.length with
          | close :: rest3 =>
            if close == '\x7d' && !t.isEmpty then
              (mark :: t) ++ markBraceF mark fuel rest3
            else mark :: markBraceF mark fuel rest
          | [] => mark :: markBraceF mark fuel rest
        else mark :: markBraceF mark fuel rest
      | [] => [mark]
    else c :: markBraceF mark fuel rest

def markSingleF (mark : Char) : Nat → List Char → List Char
  | 0, s => s
  | _ + 1, [] => []
  | fuel + 1, c :: rest =>
    if c == mark then
      match rest with
      | d :: rest2 =>
        if isAlnumAscii d then mark :: d :: markSingleF mark fuel rest2
        else mark :: markSingleF mark fuel rest
      | [] => [mark]
    else c :: markSingleF mark fuel rest

def fracF : Nat → List Char → List Char
  | 0, s => s
  | _ + 1, [] => []
  | fuel + 1, c :: rest =>
    if c == '\\' then
      match rest with
      | 'f' :: 'r' :: 'a' :: 'c' :: '\x7b' :: rest2 =>
        let a := rest2.takeWhile notBrace
        match rest2.drop a.length with
        | '\x7d' :: '\x7b' :: rest3 =>
          if a.isEmpty then '\\' :: fracF fuel rest
          else
            let b := rest3.takeWhile notBrace
            match rest3.drop b.length with
            | '\x7d' :: rest4 =>
              if b.isEmpty then '\\' :: fracF fuel rest
              else (a ++ '/' :: b) ++ fracF fuel rest4
            | _ => '\\' :: fracF fuel rest
        | _ => '\\' :: fracF fuel rest
      | _ => '\\' :: fracF fuel rest
    else c :: fracF fuel rest

def sup_braces (s : String) : String := String.mk (markBraceF '^' (s.data.length + 1) s.data)
def sup_single (s : String) : String := String.mk (markSingleF '^' (s.data.length + 1) s.data)
def sub_braces (s : String) : String := String.mk (markBraceF '_' (s.data.length + 1) s.data)
def sub_single (s : String) : String := String.mk (markSingleF '_' (s.data.length + 1) s.data)
def frac_rewrite (s : String) : String := String.mk (fracF (s.data.length + 1) s.data)

/-- The `except` branch of `latex_to_unicode`: symbol substitution first,
then `^{...}`, then `^x`, then `_{...}`, then `_x`, then `\frac{A}{B}`,
exactly in the order of the source. -/
def latex_fallback (tex : String) : String :=
  frac_rewrite (sub_single (sub_braces (sup_single (sup_braces (applySymbols tex)))))

/-- `latex_to_unicode`.  The primary path (`parse_latex` + `pretty`,
external sympy) is modelled as an oracle argument: `Except.ok r` means
the structural parse succeeded with pretty-printed output `r`;
`Except.error` means it raised, in which case the source falls back to
the substitution pipeline. -/
def latex_to_unicode (structuralParse : Except Unit String) (tex : String) : String :=
  match structuralParse with
  | .ok rendered => rendered
  | .error _ => latex_fallback tex

/-! ### The inline tokenizer `process_inline`

`re.split` with one capture group returns the pieces outside the
matches interleaved with the captured groups; odd indices are the
captures.  The three splitters below reproduce the exact regexes
`\$([^$]+)\$`, `` `(?!`)([^`]+)` `` and `\*\*(.*?)\*\*` on `List Char`.
-/

/-- Content up to the first occurrence of `c`, plus the remainder after
it; `none` when `c` does not occur. -/
def findClose (c : Char) : List Char → Option (List Char × List Char)
  | [] => none
  | x :: xs =>
    if x == c then some ([], xs)
    else
      match findClose c xs with
      | some (t, r) => some (x :: t, r)
      | none => none

def splitMathAux : Nat → List Char → List Char → List (List Char)
  | 0, acc, rest => [acc.reverse ++ rest]
  | _ + 1, acc, [] => [acc.reverse]
  | fuel + 1, acc, c :: rest =>
    if c == '$' then
      match findClose '$' rest with
      | some (t, r) =>
        if t.isEmpty then splitMathAux fuel ('$' :: acc) rest
        else acc.reverse :: t :: splitMathAux fuel [] r
      | none => splitMathAux fuel ('$' :: acc) rest
    else splitMathAux fuel (c :: acc) rest

def splitMath (cs : List Char) : List (List Char) := splitMathAux (cs.length + 1) [] cs

def splitCodeAux : Nat → List Char → List Char → List (List Char)
  | 0, acc, rest => [acc.reverse ++ rest]
  | _ + 1, acc, [] => [acc.reverse]
  | fuel + 1, acc, c :: rest =>
    if c == '`' then
      match rest with
      | '`' :: _ => splitCodeAux fuel ('`' :: acc) rest
      | _ =>
        match findClose '`' rest with
        | some (t, r) => acc.reverse :: t :: splitCodeAux fuel [] r
        | none => splitCodeAux fuel ('`' :: acc) rest
    else splitCodeAux fuel (c :: acc) rest

def splitCode (cs : List Char) : List (List Char) := splitCodeAux (cs.length + 1) [] cs

/-- Position of the first `**`, split as (text before, text after). -/
def findStars : List Char → Option (List Char × List Char)
  | '*' :: '*' :: r => some ([], r)
  | x :: xs =>
    match findStars xs with
    | some (t, r) => some (x :: t, r)
    | none => none
  | [] => none

def splitBoldAux : Nat → List Char → List (List Char)
  | 0, s => [s]
  | fuel + 1, s =>
    match findStars s with
    | none => [s]
    | some (pre, rest1) =>
      match findStars rest1 with
      | none => [s]
      | some (content, rest2) => pre :: content :: splitBoldAux fuel rest2

def splitBold (cs : List Char) : List (List Char) := splitBoldAux (cs.length + 1) cs

/-- One styled run of a rendered line.  A math run records the text the
source passes through `latex_to_unicode` (it is printed italic); a code
run is printed in courier; a bold run in bold. -/
inductive Run where
  | plain (s : String)
  | math (s : String)
  | code (s : String)
  | bold (s : String)
deriving DecidableEq

/-- Process alternating split segments: even indices with `fOut`, odd
indices (the regex captures) with `fIn`, concatenating the runs. -/
def altMap (fOut fIn : List Char → List Run) : List (List Char) → List Run
  | [] => []
  | [x] => fOut x
  | x :: y :: rest => fOut x ++ fIn y ++ altMap fOut fIn rest

/-- `process_inline`: math spans split first, then code spans inside the
non-math segments, then bold spans inside the non-code segments; an
empty plain/bold segment emits nothing (`if bpart:`).  `render` is the
math renderer (`latex_to_unicode` with its parse oracle fixed). -/
def process_inline (render : String → String) (text : String) : List Run :=
  altMap
    (fun outside =>
      altMap
        (fun out2 =>
          altMap
            (fun plainSeg => if plainSeg.isEmpty then [] else [Run.plain (String.mk plainSeg)])
            (fun boldSeg => if boldSeg.isEmpty then [] else [Run.bold (String.mk boldSeg)])
            (splitBold out2))
        (fun codeSeg => [Run.code (String.mk codeSeg)])
        (splitCode outside))
    (fun mathSeg => [Run.math (render (String.mk mathSeg))])
    (splitMath text.data)

/-! ### The block classifier `process_readme_line`

The function consumes one raw readme line together with the
in-code-block flag and produces one classified block plus the new flag.
(The source threads a second flag `in_inline_code` that is never
consulted; it is omitted here.)  The fence test in the source is
`line.strip().startswith('```')`; since no whitespace character is a
backtick, stripping the right end cannot change whether the stripped
string starts with three backticks, so the test is modelled on the
left-stripped line. -/

inductive Block where
  | fenceToggle
  | codeLine (raw : String)
  | listItem (label : String) (indent : Nat) (runs : List Run)
  | heading (level : Nat) (size : Nat) (text : String)
  | paragraph (indent : Nat) (runs : List Run)
deriving DecidableEq

/-- `re.match(r'([-*+])\s+(.*)', stripped)`: returns the `(.*)` group. -/
def ulSplit (cs : List Char) : Option (List Char) :=
  match cs with
  | c :: rest =>
    if c == '-' || c == '*' || c == '+' then
      match rest with
      | d :: _ => if isWSChar d then some (rest.dropWhile isWSChar) else none
      | [] => none
    else none
  | [] => none

/-- `re.match(r'(\d+)\.\s+(.*)', stripped)`: returns both groups.
The maximal digit run is exact: backtracking inside `\d+` cannot help,
because the character after a shorter run is a digit, never `.`. -/
def olSplit (cs : List Char) : Option (List Char × List Char) :=
  let ds := cs.takeWhile isDigitChar
  if ds.isEmpty then none
  else
    match cs.drop ds.length with
    | '.' :: rest =>
      match rest with
      | d :: _ => if isWSChar d then some (ds, rest.dropWhile isWSChar) else none
      | [] => none
    | _ => none

/-- `re.match(r'^(#{1,6})\s+(.*)', stripped)`: the greedy `#{1,6}` with
backtracking succeeds exactly when the leading run of `#` has length
1..6 and is followed by a whitespace character (a shorter run is always
followed by another `#`). -/
def headingSplit (cs : List Char) : Option (Nat × List Char) :=
  let k := (cs.takeWhile (· == '#')).length
  if 1 ≤ k && k ≤ 6 then
    match cs.drop k with
    | d :: _ => if isWSChar d then some (k, (cs.drop k).dropWhile isWSChar) else none
    | [] => none
  else none

def process_readme_line (render : String → String) (line : String) (in_code_block : Bool) :
    Block × Bool :=
  if (line.data.dropWhile isWSChar).take 3 = ['`', '`', '`'] then
    (Block.fenceToggle, !in_code_block)
  else if in_code_block then (Block.codeLine line, in_code_block)
  else
    let stripped := line.data.dropWhile isWSChar
    let indent := line.data.length - stripped.length
    match ulSplit stripped with
    | some content =>
      (Block.listItem "*" indent (process_inline render (String.mk content)), in_code_block)
    | none =>
      match olSplit stripped with
      | some (ds, content) =>
        (Block.listItem (String.mk (ds ++ ['.'])) indent
          (process_inline render (String.mk content)), in_code_block)
      | none =>
        match headingSplit stripped with
        | some (k, content) =>
          (Block.heading k (max (16 - 2 * k) 10) (String.mk content), in_code_block)
        | none =>
          (Block.paragraph indent (process_inline render (String.mk stripped)), in_code_block)

/-- An ATX heading line: `level` hash marks, a space, then `text`. -/
def mkHeadingLine (level : Nat) (text : String) : String :=
  String.mk (List.replicate level '#' ++ ' ' :: text.data)

/-! ### Repositories and section ordering (`generate_pdf`, prologue) -/

structure Repo where
  name : String
  description : Option String
  html_url : String
  stargazers_count : Nat
deriving DecidableEq

/-- `prioritize.index(r["name"]) <= prioritize.index(r'["name"])`: the
sort key of the prioritized sublist. -/
def prioRel (p : List String) : Repo → Repo → Prop :=
  fun a b => p.indexOf a.name ≤ p.indexOf b.name

instance (p : List String) : DecidableRel (prioRel p) := fun _ _ => Nat.decLe _ _

instance (p : List String) : IsTotal Repo (prioRel p) := ⟨fun _ _ => Nat.le_total _ _⟩

instance (p : List String) : IsTrans Repo (prioRel p) := ⟨fun _ _ _ => Nat.le_trans⟩

/-- `sort(key=stargazers_count, reverse=True)`: descending star count. -/
def starRel : Repo → Repo → Prop :=
  fun a b => b.stargazers_count ≤ a.stargazers_count

instance : DecidableRel starRel := fun _ _ => Nat.decLe _ _

instance : IsTotal Repo starRel := ⟨fun _ _ => Nat.le_total _ _⟩

instance : IsTrans Repo starRel := ⟨fun _ _ _ h1 h2 => Nat.le_trans h2 h1⟩

/-- The section order of `generate_pdf` (and of the HTML/markdown
writers, which repeat the same four lines): repos named in `prioritize`,
stably sorted by their index in that list, then the repos named in
neither list, stably sorted by descending star count.  Python's
`list.sort` is stable, and a stable sort of a total preorder has a
unique result, so the stable `insertionSort` reproduces it exactly. -/
def sorted_repos (repos : List Repo) (prioritize exclude : List String) : List Repo :=
  let prio := List.insertionSort (prioRel prioritize)
    (repos.filter fun r => decide (r.name ∈ prioritize))
  let other := List.insertionSort starRel
    (repos.filter fun r => decide (r.name ∉ prioritize ∧ r.name ∉ exclude))
  prio ++ other

/-! ### Readme fetching (`fetch_readme`) and section rendering -/

/-- Outcome of the `requests.get` call inside `fetch_readme`: either a
completed HTTP response (status code and body) or a raised exception
(connection error, timeout, ...), which `fetch_readme` does not catch. -/
inductive FetchOutcome where
  | response (status : Nat) (body : String)
  | raised
deriving DecidableEq

/-- `fetch_readme`: body on status 200, `None` on any other status; a
raised transport exception propagates (modelled as `Except.error`). -/
def fetch_readme : FetchOutcome → Except Unit (Option String)
  | .response st body => if st = 200 then .ok (some body) else .ok none
  | .raised => .error ()

/-- One rendered repository section of the document: `readmeSection` is
`none` exactly when the `if readme:` guard in `generate_pdf` skips the
README heading and lines. -/
structure SectionDoc where
  title : String
  description : String
  readmeSection : Option (List String)
deriving DecidableEq

/-- Python `x or default` for the description field: `None` and the
empty string are both falsy. -/
def pyOr (d : Option String) (alt : String) : String :=
  match d with
  | none => alt
  | some s => if s = "" then alt else s

/-- The per-repository rendering of `generate_pdf` given the readme
fetch result: `if readme:` is Python truthiness, so `None` and the
empty string both produce no README subsection. -/
def render_section (repo : Repo) (readme : Option String) : SectionDoc :=
  { title := repo.name
    description := pyOr repo.description "No description"
    readmeSection :=
      match readme with
      | some r => if r = "" then none else some (r.splitOn "\n")
      | none => none }

/-- Fetch plus render for one repository; a raised fetch aborts. -/
def build_section (repo : Repo) (f : FetchOutcome) : Except Unit SectionDoc :=
  (fetch_readme f).map (render_section repo)

/-- The section loop of `generate_pdf`: sections are built in order and
the first propagated exception aborts the whole run. -/
def render_run (pairs : List (Repo × FetchOutcome)) : Except Unit (List SectionDoc) :=
  pairs.mapM fun pr => build_section pr.1 pr.2

/-! ### The page writer and the TOC reconciliation loop

fpdf's cursor model with the library's A4/mm defaults: after
`add_page()` the cursor is at the 10 mm top margin; a `cell`/
`multi_cell` of height `h` first breaks to a fresh page when
`y + h` would pass the break trigger `page_height - bottom_margin
= 297 - 20 = 277`; `ln(h)` moves the cursor down without a break
check.  (fpdf's exact margin is 28.35/k ≈ 10.00125 mm; with row
heights 4, 5, 10 the rounded integer constants break pages at the
same rows, so `Nat` suffices.)  Cells never advance `y`; only `ln`
and the per-line stepping of `multi_cell` do, so a `multi_cell`
of `n` lines is `n` repetitions of a break-checking cell followed
by an `ln` of the line height. -/

structure Pager where
  page : Nat
  y : Nat
deriving DecidableEq

def tMargin : Nat := 10

def pageBreakTrigger : Nat := 277

inductive Op where
  | cell (h : Nat)
  | ln (h : Nat)
deriving DecidableEq

def pagerStep (st : Pager) : Op → Pager
  | .cell h => if pageBreakTrigger < st.y + h then { page := st.page + 1, y := tMargin } else st
  | .ln h => { st with y := st.y + h }

def runOps (st : Pager) (ops : List Op) : Pager := ops.foldl pagerStep st

/-- `add_page()`: next page, cursor at the top margin. -/
def addPage (st : Pager) : Pager := { page := st.page + 1, y := tMargin }

/-- `PDF()` followed by `add_page()`: page 1, cursor at the top. -/
def freshDoc : Pager := { page := 1, y := tMargin }

/-- Lay the sections out in order, recording `page_no()` at the start
of each section (the `rel_pages.append(...page_no())` calls). -/
def recordPass : Pager → List (List Op) → List Nat × Pager
  | st, [] => ([], st)
  | st, s :: rest =>
    let st2 := runOps st s
    let (ps, stf) := recordPass st2 rest
    (st.page :: ps, stf)

/-- The dry-run content pass: relative page numbers, starting at 1. -/
def rel_pages (sections : List (List Op)) : List Nat := (recordPass freshDoc sections).1

/-- `multi_cell(0, h, text)` spanning `nLines` physical lines. -/
def multiCellOps (h : Nat) (nLines : Nat) : List Op :=
  (List.replicate nLines [Op.cell h, Op.ln h]).flatten

/-- The cursor operations of one repository section in `generate_pdf`:
name cell + ln 10, description `multi_cell(0,10,...)`, link cell +
ln 10, optionally the `README:` cell + ln 10 and the readme line
operations, and the trailing ln 10. -/
def repoSectionOps (descLines : Nat) (readmeOps : List Op) (hasReadme : Bool) : List Op :=
  [Op.cell 10, Op.ln 10] ++ multiCellOps 10 descLines ++ [Op.cell 10, Op.ln 10] ++
    (if hasReadme then [Op.cell 10, Op.ln 10] ++ readmeOps else []) ++ [Op.ln 10]

/-- One dotted-leader TOC row: three height-5 cells and `ln(5)`.  The
entry text, the dots and the printed page number change only cell
widths, never heights, so the row's cursor effect is fixed. -/
def tocRowOps : List Op := [Op.cell 5, Op.cell 5, Op.cell 5, Op.ln 5]

/-- The TOC document body: the `Table of Contents` header cell, `ln
10`, and one row per entry. -/
def tocOps (n : Nat) : List Op := [Op.cell 10, Op.ln 10] ++ (List.replicate n tocRowOps).flatten

/-- Page count of the standalone TOC document rendered for `n` entries
(`toc_pdf.page_no()` after the row loop).  It depends only on the entry
count, not on the assumed TOC page count. -/
def tocDocPages (n : Nat) : Nat := (runOps freshDoc (tocOps n)).page

/-- Lines 276-277 of the source, verbatim: `content_start = 1 +
assumed_toc_pages`; `abs_pages = [rel + content_start - 1 ...]`. -/
def abs_pages (relPages : List Nat) (assumedTocPages : Nat) : List Nat :=
  let contentStart := 1 + assumedTocPages
  relPages.map fun rel => rel + contentStart - 1

/-- The `while True` reconciliation loop, recording the successive
values of `assumed_toc_pages` (one list entry per loop iteration).
`none` means the fuel ran out before convergence; fuel 2 is proved
sufficient for every input. -/
def tocLoopTrace : Nat → Nat → Nat → Option (List Nat)
  | 0, _, _ => none
  | fuel + 1, n, assumed =>
    let actual := tocDocPages n
    if actual = assumed then some [assumed]
    else
      match tocLoopTrace fuel n actual with
      | some tr => some (assumed :: tr)
      | none => none

/-- The same loop returning only the converged TOC page count. -/
def tocLoopRun : Nat → Nat → Nat → Option Nat
  | 0, _, _ => none
  | fuel + 1, n, assumed =>
    let actual := tocDocPages n
    if actual = assumed then some assumed else tocLoopRun fuel n actual

/-- The final pass of `generate_pdf`: title page (`add_page`, one title
cell), `add_page` then the TOC body, `add_page` then the content
sections; returns the `page_no()` recorded at each section start (the
pages the TOC hyperlinks are bound to). -/
def final_section_pages (sections : List (List Op)) (nRows : Nat) : List Nat :=
  let afterTitle := runOps freshDoc [Op.cell 10]
  let afterToc := runOps (addPage afterTitle) (tocOps nRows)
  (recordPass (addPage afterToc) sections).1

/-! ### The contribution calendar -/

structure ContribDay where
  date : String
  contributionCount : Nat
  color : String
deriving DecidableEq

structure Week where
  contributionDays : List ContribDay
deriving DecidableEq

structure Calendar where
  totalContributions : Nat
  weeks : List Week
deriving DecidableEq

/-- `weeks = contrib["weeks"][1:]` in the dry-run content pass (line
213); the render loop draws one week column per element. -/
def dry_run_weeks (c : Calendar) : List Week := c.weeks.drop 1

/-- `weeks = contrib["weeks"][1:]` in the final pass (line 336). -/
def final_weeks (c : Calendar) : List Week := c.weeks.drop 1

/-! ### Concrete repositories used by witnesses and counterexamples -/

def repoA : Repo := { name := "A", description := none, html_url := "https://e/A", stargazers_count := 5 }

def repoB : Repo := { name := "B", description := none, html_url := "https://e/B", stargazers_count := 10 }

def repoC : Repo := { name := "C", description := none, html_url := "https://e/C", stargazers_count := 1 }

/-! ### Helper lemmas about the pager -/

theorem pagerStep_page_le (st : Pager) (op : Op) : st.page ≤ (pagerStep st op).page := by
  cases op with
  | cell h =>
    simp only [pagerStep]
    split
    · exact Nat.le_succ _
    · exact Nat.le_refl _
  | ln h => exact Nat.le_refl _

theorem runOps_page_le (ops : List Op) (st : Pager) : st.page ≤ (runOps st ops).page := by
  induction ops generalizing st with
  | nil => exact Nat.le_refl _
  | cons op rest ih =>
    exact Nat.le_trans (pagerStep_page_le st op) (ih (pagerStep st op))

theorem tocDocPages_pos (n : Nat) : 1 ≤ tocDocPages n :=
  runOps_page_le (tocOps n) freshDoc

theorem tocDocPages_one_of_small (n : Nat) (h : n ≤ 1) : tocDocPages n = 1 := by
  interval_cases n <;> decide


/-! ### Claim theorems -/

/-- C1 (code bug evidence): for one repository section (one TOC row,
one-line description, no readme, no calendar) the dry run yields
relative page 1 and the loop converges to one TOC page, but the
absolute page number printed in the TOC is `rel + (1 + T) - 1 = 2`
(lines 276-277) while in the final document (title page 1, TOC page 2,
content from page 3) the section actually starts on page 3: the
printed number is one page short of both the claimed formula
`rel + (1 + T)` and the actual start page. -/
theorem c1_toc_number_off_by_one :
    rel_pages [repoSectionOps 1 [] false] = [1] ∧
    tocLoopRun 2 1 1 = some 1 ∧
    abs_pages [1] 1 = [2] ∧
    final_section_pages [repoSectionOps 1 [] false] 1 = [3] := by decide

/-- C2 (amended): the reconciliation loop always converges within fuel
2 — the measured TOC page count does not depend on the assumed one, so
the trace is `[1]` or `[1, tocDocPages n]` — the successive assumed
values are monotone non-decreasing, and the iteration count is bounded
by `max 1 n` (not by `n` itself: with zero rows one iteration still
runs). -/
theorem c2_reconciliation_terminates (n : Nat) :
    ∃ tr, tocLoopTrace 2 n 1 = some tr ∧ tr.Chain' (· ≤ ·) ∧ tr.length ≤ max 1 n := by
  by_cases h : tocDocPages n = 1
  · refine ⟨[1], ?_, ?_, ?_⟩
    · simp [tocLoopTrace, h]
    · simp
    · simp
  · refine ⟨[1, tocDocPages n], ?_, ?_, ?_⟩
    · simp [tocLoopTrace, h]
    · simpa using tocDocPages_pos n
    · have hn : 2 ≤ n := by
        by_contra hlt
        push_neg at hlt
        exact h (tocDocPages_one_of_small n (Nat.lt_succ_iff.mp hlt))
      exact Nat.le_trans hn (Nat.le_max_right 1 n)

/-- C2 counterexample: with zero TOC rows the loop still performs one
iteration, so the iteration count is not bounded by the row count. -/
theorem c2_zero_rows_bound_fails :
    tocLoopTrace 2 0 1 = some [1] ∧ ¬(List.length [1] ≤ 0) := by decide

/-- C3 counterexample: on `` `a $b$ c` `` the tokenizer does not
produce a single code run — the math split runs first, so the output
has three runs and none of them is a code run. -/
theorem c3_single_code_run_fails :
    process_inline latex_fallback "`a $b$ c`" ≠ [Run.code "a $b$ c"] := by decide

/-- C3 (amended): on `` `a $b$ c` `` the dollar span wins over the
backtick span, because `process_inline` splits on `$...$` before
looking for backtick spans: the output is a plain run `` `a ``, a math
run for `b`, and a plain run `` c` ``. -/
theorem c3_dollar_span_wins (render : String → String) :
    process_inline render "`a $b$ c`" =
      [Run.plain "`a ", Run.math (render "b"), Run.plain " c`"] := rfl

/-- C4 (amended): the output is the prioritized repositories (stably
ordered by their index in the prioritize list) followed by the
repositories named in neither list (stably ordered by descending star
count); a repository named in the exclude list is omitted only when it
is not also named in the prioritize list — the prioritized sublist is
not filtered by the exclude list.  The spec's concrete example
(prioritize C, exclude B) gives `[C, A]`. -/
theorem c4_section_ordering :
    (∀ (repos : List Repo) (p e : List String),
        sorted_repos repos p e =
          List.insertionSort (prioRel p) (repos.filter fun r => decide (r.name ∈ p)) ++
            List.insertionSort starRel
              (repos.filter fun r => decide (r.name ∉ p ∧ r.name ∉ e)) ∧
        List.Sorted (prioRel p)
          (List.insertionSort (prioRel p) (repos.filter fun r => decide (r.name ∈ p))) ∧
        List.Sorted starRel
          (List.insertionSort starRel
            (repos.filter fun r => decide (r.name ∉ p ∧ r.name ∉ e))) ∧
        ∀ r ∈ sorted_repos repos p e, r.name ∈ e → r.name ∈ p) ∧
    sorted_repos [repoA, repoB, repoC] ["C"] ["B"] = [repoC, repoA] := by
  constructor
  · intro repos p e
    refine ⟨rfl, List.sorted_insertionSort _ _, List.sorted_insertionSort _ _, ?_⟩
    intro r hr he
    rcases List.mem_append.mp hr with hmem | hmem
    · have h1 := (List.mem_filter.mp ((List.mem_insertionSort _).mp hmem)).2
      simpa using h1
    · have h2 := (List.mem_filter.mp ((List.mem_insertionSort _).mp hmem)).2
      simp only [decide_eq_true_eq] at h2
      exact absurd he h2.2
  · decide

/-- C4 witness: the hypotheses of the exclusion clause are satisfiable
(a repository in both lists is in the output and named in exclude). -/
theorem c4_section_ordering_witness : repoA.name ∈ (["A"] : List String) :=
  (c4_section_ordering.1 [repoA] ["A"] ["A"]).2.2.2 repoA (by decide) (by decide)

/-- C4 counterexample: a repository named in both the prioritize and
the exclude lists is not omitted — it stays in the output, because the
prioritized sublist is built before the exclude filter is consulted. -/
theorem c4_excluded_but_prioritized_kept :
    sorted_repos [repoA] ["A"] ["A"] = [repoA] ∧ repoA.name ∈ (["A"] : List String) := by
  decide

/-- C5 (amended): any completed HTTP response with a non-200 status
(404 included) soft-fails — the section renders with no README
subsection and the run continues; but a raised transport exception is
not this case (see the counterexample). -/
theorem c5_non200_soft_fail (repo : Repo) (st : Nat) (body : String) (h : st ≠ 200) :
    build_section repo (FetchOutcome.response st body) = Except.ok (render_section repo none) ∧
    (render_section repo none).readmeSection = none := by
  refine ⟨?_, rfl⟩
  simp [build_section, fetch_readme, h, Except.map]

/-- C5 witness: the 404 instance of the soft-fail theorem. -/
theorem c5_non200_soft_fail_witness :
    build_section repoA (FetchOutcome.response 404 "") = Except.ok (render_section repoA none) ∧
    (render_section repoA none).readmeSection = none :=
  c5_non200_soft_fail repoA 404 "" (by decide)

/-- C5 counterexample: a readme fetch whose `requests.get` raises is
not caught anywhere — the exception propagates out of the section loop
and the run aborts, contradicting "never aborts the run". -/
theorem c5_raised_fetch_aborts :
    render_run [(repoA, FetchOutcome.raised)] = Except.error () := rfl

/-- C6: in the fallback pipeline the symbol-table substitution is
applied first (innermost), before the superscript and subscript
rewrites and the fraction rewrite; on `\alpha^2` the symbol pass
already yields `a^2` and the whole fallback returns exactly `a^2`. -/
theorem c6_symbols_before_scripts :
    (∀ tex, latex_fallback tex =
        frac_rewrite (sub_single (sub_braces (sup_single (sup_braces (applySymbols tex)))))) ∧
    applySymbols "\\alpha^2" = "a^2" ∧ latex_fallback "\\alpha^2" = "a^2" :=
  ⟨fun _ => rfl, by decide, by decide⟩

/-- C7: an ATX heading line with `L` hash marks (1 ≤ L ≤ 6) followed by
a space and the heading text is classified as a heading of level `L`
with font size `max (16 - 2 L) 10`; the text is the remainder with
leading whitespace stripped. -/
theorem c7_heading_font_size (render : String → String) (L : Nat) (text : String)
    (h1 : 1 ≤ L) (h2 : L ≤ 6) :
    process_readme_line render (mkHeadingLine L text) false =
      (Block.heading L (max (16 - 2 * L) 10) (String.mk (text.data.dropWhile isWSChar)),
        false) := by
  interval_cases L <;> rfl

/-- C7 witness: level 4 clamps to size 10 (`16 - 8 = 8 < 10`). -/
theorem c7_heading_font_size_witness :
    process_readme_line id (mkHeadingLine 4 "Results") false =
      (Block.heading 4 10 "Results", false) :=
  (c7_heading_font_size id 4 "Results" (by decide) (by decide)).trans (by decide)

/-- C8: both the dry-run pass and the final pass render
`contrib["weeks"][1:]` — one week column fewer than the input; a
53-week calendar renders exactly 52 columns in both passes. -/
theorem c8_first_week_discarded :
    (∀ c : Calendar,
        (dry_run_weeks c).length = c.weeks.length - 1 ∧
        (final_weeks c).length = c.weeks.length - 1) ∧
    (dry_run_weeks
        { totalContributions := 0, weeks := List.replicate 53 { contributionDays := [] } }).length
      = 52 ∧
    (final_weeks
        { totalContributions := 0, weeks := List.replicate 53 { contributionDays := [] } }).length
      = 52 := by
  refine ⟨fun c => ⟨?_, ?_⟩, ?_, ?_⟩ <;> simp [dry_run_weeks, final_weeks]

/-- C9: the renderer is total — on a successful structural parse it
returns the pretty-printed result, on a raised parse it returns the
fallback, which is itself a total function; unknown commands and
unmatched braces pass through the fallback unchanged. -/
theorem c9_renderer_total :
    (∀ (pr : Except Unit String) (tex : String),
        latex_to_unicode pr tex =
          match pr with
          | Except.ok r => r
          | Except.error _ => latex_fallback tex) ∧
    latex_fallback "\\foo" = "\\foo" ∧
    latex_fallback "x^\x7b2" = "x^\x7b2" ∧
    latex_fallback "a_\x7bb" = "a_\x7bb" :=
  ⟨fun _ _ => rfl, by decide, by decide, by decide⟩

/-- C10: a 200 response with an empty body makes `fetch_readme` return
the empty string, and the Python truthiness test `if readme:` then
skips the README subsection, so the rendered section is exactly the
one rendered for an absent readme. -/
theorem c10_empty_readme_like_absent (repo : Repo) :
    fetch_readme (FetchOutcome.response 200 "") = Except.ok (some "") ∧
    build_section repo (FetchOutcome.response 200 "") = Except.ok (render_section repo none) ∧
    (render_section repo (some "")).readmeSection = none :=
  ⟨rfl, rfl, rfl⟩
